import Mathlib

/-!
Verification development for the Paris sunlight map script (src/script.js).

The script's numeric computations (JavaScript doubles) are modelled over the
real numbers; tag-string parsing (JS parseFloat / parseInt) is modelled over
the rationals so that it stays executable.  A JavaScript number that may be
NaN is modelled as an Option (none = NaN).  Geographic points appear the way
the script stores them, as (latitude, longitude) pairs.
-/

namespace Sunmap

/-- JavaScript truncation toward zero, as used by the `%` remainder operator. -/
noncomputable def jsTrunc (x : ℝ) : ℤ :=
  if 0 ≤ x then ⌊x⌋ else ⌈x⌉

/-- JavaScript remainder `a % b`: the sign follows the dividend (truncated
division), unlike the mathematical modulus. -/
noncomputable def jsMod (a b : ℝ) : ℝ :=
  a - b * jsTrunc (a / b)

/-- JavaScript `Math.atan2(y, x)`: the argument of the complex number
`x + i*y`, which lies in (-pi, pi] and is 0 at the origin (as `Math.atan2`
is on non-negative zeros). -/
noncomputable def atan2 (y x : ℝ) : ℝ :=
  Complex.arg { re := x, im := y }

/-- Sun position as returned by the SunCalc collaborator: azimuth and
altitude in radians (script.js lines 36, 90-92). -/
structure SunPos where
  azimuth : ℝ
  altitude : ℝ

/-- One fetched OSM way as consumed by drawStreets: the optional geometry
(`way.geometry`, absent = JS undefined) and the `way.tags.highway` value
(absent = undefined, which fails the `includes` check). Points are
(lat, lon) pairs, the layout of `latlngs` in the script. -/
structure Way where
  geometry : Option (List (ℝ × ℝ))
  highway : Option String

/-- A lit-quad: the four corner points handed to `L.polygon`
(script.js lines 64-69), in emission order. -/
structure Quad where
  a : ℝ × ℝ
  b : ℝ × ℝ
  c : ℝ × ℝ
  d : ℝ × ℝ

/-- The road categories accepted by drawStreets (script.js line 46). -/
def acceptedHighways : List String :=
  ["primary", "secondary", "tertiary", "residential"]

/-- The `includes` check of script.js line 46: an absent highway tag
(JS undefined) is not in the list. -/
def acceptedRoad : Option String → Bool
  | none => false
  | some s => acceptedHighways.contains s

/-- The fixed road half-width in meters (script.js line 41). -/
def roadWidth : ℝ := 6

/-- Bearing of the sub-segment from p1 to p2 (script.js lines 54-56):
`(Math.atan2(dx, dy) * 180 / Math.PI + 360) % 360` with dx the longitude
delta and dy the latitude delta. -/
noncomputable def bearingAngle (p1 p2 : ℝ × ℝ) : ℝ :=
  jsMod (atan2 (p2.2 - p1.2) (p2.1 - p1.1) * 180 / Real.pi + 360) 360

/-- Body of the per-pair loop of drawStreets (script.js lines 51-76), with
the road width kept as a parameter (the script fixes it to `roadWidth`):
classify the pair lit when the circular distance between its bearing and the
adjusted azimuth is below 20 degrees, and then emit the offset quad.
Lean's total division gives 0/0 = 0 where JavaScript produces NaN; the
degenerate case is examined separately (`segQuad_degenerate_emits`). -/
noncomputable def segQuad (azimuthDeg w : ℝ) (p1 p2 : ℝ × ℝ) : Option Quad :=
  let dx := p2.2 - p1.2
  let dy := p2.1 - p1.1
  let angle := bearingAngle p1 p2
  let diff := |angle - azimuthDeg|
  let minDiff := min diff (360 - diff)
  if minDiff < 20 then
    let segLen := Real.sqrt (dx * dx + dy * dy)
    let offsetLat := (w / 110540) * (dx / segLen)
    let offsetLon := (w / 111320) * (-dy / segLen)
    some ⟨(p1.1 + offsetLat, p1.2 + offsetLon),
          (p2.1 + offsetLat, p2.2 + offsetLon),
          (p2.1 - offsetLat, p2.2 - offsetLon),
          (p1.1 - offsetLat, p1.2 - offsetLon)⟩
  else none

/-- Consecutive point pairs (latlngs[i], latlngs[i+1]) of a point list. -/
def consecutivePairs (l : List (ℝ × ℝ)) : List ((ℝ × ℝ) × (ℝ × ℝ)) :=
  l.zip l.tail

/-- The per-way body of drawStreets (script.js lines 43-79): a way with no
geometry, a non-accepted highway value, or fewer than 2 points contributes
nothing; otherwise each consecutive pair may contribute a quad. -/
noncomputable def wayQuads (azimuthDeg : ℝ) (w : Way) : List Quad :=
  match w.geometry with
  | none => []
  | some geom =>
    if ¬ acceptedRoad w.highway then []
    else
      let latlngs := geom
      if latlngs.length < 2 then []
      else (consecutivePairs latlngs).filterMap
        (fun pq => segQuad azimuthDeg roadWidth pq.1 pq.2)

/-- The adjusted sun azimuth in degrees (script.js line 37):
`(sunPos.azimuth * 180 / Math.PI + 180) % 360`. -/
noncomputable def azimuthDeg (sun : SunPos) : ℝ :=
  jsMod (sun.azimuth * 180 / Real.pi + 180) 360

/-- drawStreets (script.js lines 31-80) restricted to its geometric output:
the list of lit quads added to the street layer.  The sun position is a
parameter (the script obtains it from SunCalc). -/
noncomputable def drawStreets (sun : SunPos) (streetData : List Way) : List Quad :=
  if sun.altitude * 180 / Real.pi ≤ 0 then []
  else streetData.flatMap (wayQuads (azimuthDeg sun))

/-- The two building tags drawBuildings reads (script.js lines 109-110).
`none` is an absent key (JS undefined); `some ""` is a present key with an
empty value, which is falsy in JavaScript just like undefined. -/
structure Tags where
  height : Option String
  levels : Option String

/-- JavaScript truthiness of a possibly-absent string: undefined and the
empty string are falsy, every other string is truthy. -/
def truthyStr : Option String → Bool
  | none => false
  | some s => !(s = "")

/-- Value of a digit list read in base 10. -/
def digitsVal (l : List Char) : ℕ :=
  l.foldl (fun a c => a * 10 + (c.toNat - 48)) 0

/-- JavaScript `parseFloat`, modelled on the inputs the script meets:
leading whitespace is skipped, then an optional sign, integer digits and an
optional fractional part are read, ignoring any trailing garbage.  `none`
is NaN (no digit found).  (The exponent and Infinity forms of the full JS
grammar are not modelled; no claim depends on them.) -/
def parseFloatQ (s : String) : Option ℚ :=
  let l := s.toList.dropWhile Char.isWhitespace
  let sign : ℚ := if l.head? = some '-' then -1 else 1
  let l := if l.head? = some '-' ∨ l.head? = some '+' then l.tail else l
  let intPart := l.takeWhile Char.isDigit
  let rest := l.dropWhile Char.isDigit
  let fracPart := if rest.head? = some '.' then rest.tail.takeWhile Char.isDigit else []
  if intPart = [] ∧ fracPart = [] then none
  else some (sign * ((digitsVal intPart : ℚ) + (digitsVal fracPart : ℚ) / 10 ^ fracPart.length))

/-- JavaScript `parseInt` with no radix argument, modelled on the decimal
inputs the script meets: leading whitespace, optional sign, then decimal
digits; `none` is NaN (no digit found). -/
def parseIntQ (s : String) : Option ℤ :=
  let l := s.toList.dropWhile Char.isWhitespace
  let sign : ℤ := if l.head? = some '-' then -1 else 1
  let l := if l.head? = some '-' ∨ l.head? = some '+' then l.tail else l
  let intPart := l.takeWhile Char.isDigit
  if intPart = [] then none
  else some (sign * (digitsVal intPart : ℤ))

/-- Height estimate of drawBuildings (script.js lines 108-110):
`let height = 10; if (b.tags && b.tags["building:height"]) height =
parseFloat(...); else if (b.tags && b.tags["building:levels"]) height =
parseInt(...)*3;`.  The result is an Option because parseFloat/parseInt can
produce NaN, which then propagates. -/
def estimateHeight (tags : Option Tags) : Option ℚ :=
  if truthyStr (tags.bind Tags.height) then
    parseFloatQ ((tags.bind Tags.height).getD "")
  else if truthyStr (tags.bind Tags.levels) then
    (parseIntQ ((tags.bind Tags.levels).getD "")).map (fun n => (n : ℚ) * 3)
  else some 10

/-- One fetched OSM building as consumed by drawBuildings: optional
geometry (absent = undefined) with (lat, lon) points, and optional tags. -/
structure Building where
  geometry : Option (List (ℝ × ℝ))
  tags : Option Tags

/-- Shadow length (script.js line 112): `height / Math.tan(alt)`. -/
noncomputable def shadowLength (height alt : ℝ) : ℝ :=
  height / Real.tan alt

/-- The shadow quantities computed per building (script.js lines 112-115);
length and displacement inherit NaN (none) from a NaN height. -/
structure ShadowVec where
  len : Option ℝ
  dir : ℝ
  dx : Option ℝ
  dy : Option ℝ

/-- The shadow vector of one building (script.js lines 107-115). -/
noncomputable def shadowVecOf (sun : SunPos) (b : Building) : ShadowVec :=
  let height := (estimateHeight b.tags).map (fun q => (q : ℝ))
  let sLen := height.map (fun h => shadowLength h sun.altitude)
  let angle := sun.azimuth + Real.pi
  ⟨sLen, angle,
   sLen.map (fun l => (l / 111320) * Real.sin angle),
   sLen.map (fun l => (l / 110540) * Real.cos angle)⟩

/-- Result of one drawBuildings pass: the footprint polygons added to the
building layer and the shadow vectors computed per building. -/
structure BuildingsResult where
  footprints : List (List (ℝ × ℝ))
  shadows : List ShadowVec

/-- drawBuildings (script.js lines 83-120) restricted to its geometric
output.  Line 93 returns before the forEach when the altitude is not
positive, so neither footprints nor shadow vectors are produced.  Inside
the loop, a building without geometry or with fewer than 3 points is
skipped (line 96); otherwise its footprint is drawn (lines 97-105, the
double swap restores (lat, lon)) and its shadow vector computed. -/
noncomputable def drawBuildings (sun : SunPos) (buildingData : List Building) :
    BuildingsResult :=
  if sun.altitude ≤ 0 then ⟨[], []⟩
  else
    let items := buildingData.filterMap (fun b =>
      match b.geometry with
      | none => none
      | some g =>
        if g.length < 3 then none
        else
          let footprint := g.map (fun pt => (pt.2, pt.1))
          some (footprint.map (fun p => (p.2, p.1)), shadowVecOf sun b))
    ⟨items.map Prod.fst, items.map Prod.snd⟩

/-- The closed segment between two points of the plane, written out in
coordinates. -/
def seg (p q : ℝ × ℝ) : Set (ℝ × ℝ) :=
  {x | ∃ t : ℝ, 0 ≤ t ∧ t ≤ 1 ∧
    x.1 = p.1 + t * (q.1 - p.1) ∧ x.2 = p.2 + t * (q.2 - p.2)}

/-- A simple (non-self-intersecting) quadrilateral with vertices a b c d in
cyclic order: opposite edges are disjoint and consecutive edges meet only
in their shared vertex. -/
def IsSimpleQuad (a b c d : ℝ × ℝ) : Prop :=
  seg a b ∩ seg c d = ∅ ∧ seg b c ∩ seg d a = ∅ ∧
  seg a b ∩ seg b c = {b} ∧ seg b c ∩ seg c d = {c} ∧
  seg c d ∩ seg d a = {d} ∧ seg d a ∩ seg a b = {a}

/-- 2x2 determinant of two plane vectors. -/
def det2 (u v : ℝ × ℝ) : ℝ :=
  u.1 * v.2 - u.2 * v.1

theorem det2_indep {u o : ℝ × ℝ} (h : det2 u o ≠ 0) {α β : ℝ}
    (h1 : α * u.1 + β * o.1 = 0) (h2 : α * u.2 + β * o.2 = 0) :
    α = 0 ∧ β = 0 := by
  have hα : α * det2 u o = 0 := by
    unfold det2; linear_combination o.2 * h1 - o.1 * h2
  have hβ : β * det2 u o = 0 := by
    unfold det2; linear_combination u.1 * h2 - u.2 * h1
  exact ⟨(mul_eq_zero.mp hα).resolve_right h, (mul_eq_zero.mp hβ).resolve_right h⟩

theorem parallelogram_simple (P u o : ℝ × ℝ) (h : det2 u o ≠ 0) :
    IsSimpleQuad (P.1 + o.1, P.2 + o.2) (P.1 + u.1 + o.1, P.2 + u.2 + o.2)
      (P.1 + u.1 - o.1, P.2 + u.2 - o.2) (P.1 - o.1, P.2 - o.2) := by
  refine ⟨?_, ?_, ?_, ?_, ?_, ?_⟩
  · ext x
    simp only [Set.mem_inter_iff, Set.mem_empty_iff_false, iff_false, seg,
      Set.mem_setOf_eq, not_and]
    rintro ⟨t, ht0, ht1, hx1, hx2⟩ ⟨s, hs0, hs1, hy1, hy2⟩
    have e1 : (t + s - 1) * u.1 + 2 * o.1 = 0 := by linear_combination hy1 - hx1
    have e2 : (t + s - 1) * u.2 + 2 * o.2 = 0 := by linear_combination hy2 - hx2
    have h2 := (det2_indep h e1 e2).2
    norm_num at h2
  · ext x
    simp only [Set.mem_inter_iff, Set.mem_empty_iff_false, iff_false, seg,
      Set.mem_setOf_eq, not_and]
    rintro ⟨t, ht0, ht1, hx1, hx2⟩ ⟨s, hs0, hs1, hy1, hy2⟩
    have e1 : (1 : ℝ) * u.1 + (2 - 2 * t - 2 * s) * o.1 = 0 := by
      linear_combination hy1 - hx1
    have e2 : (1 : ℝ) * u.2 + (2 - 2 * t - 2 * s) * o.2 = 0 := by
      linear_combination hy2 - hx2
    have h1 := (det2_indep h e1 e2).1
    norm_num at h1
  · ext x
    simp only [Set.mem_inter_iff, seg, Set.mem_setOf_eq, Set.mem_singleton_iff]
    constructor
    · rintro ⟨⟨t, ht0, ht1, hx1, hx2⟩, ⟨s, hs0, hs1, hy1, hy2⟩⟩
      have e1 : (t - 1) * u.1 + (2 * s) * o.1 = 0 := by linear_combination hy1 - hx1
      have e2 : (t - 1) * u.2 + (2 * s) * o.2 = 0 := by linear_combination hy2 - hx2
      obtain ⟨hα, hβ⟩ := det2_indep h e1 e2
      have ht : t = 1 := by linarith
      have hs : s = 0 := by linarith
      subst ht; subst hs
      refine Prod.ext_iff.mpr ⟨?_, ?_⟩ <;> dsimp only <;> linarith
    · rintro rfl
      refine ⟨⟨1, by norm_num, le_refl 1, by dsimp only; ring, by dsimp only; ring⟩,
        ⟨0, le_refl 0, by norm_num, by dsimp only; ring, by dsimp only; ring⟩⟩
  · ext x
    simp only [Set.mem_inter_iff, seg, Set.mem_setOf_eq, Set.mem_singleton_iff]
    constructor
    · rintro ⟨⟨t, ht0, ht1, hx1, hx2⟩, ⟨s, hs0, hs1, hy1, hy2⟩⟩
      have e1 : s * u.1 + (2 - 2 * t) * o.1 = 0 := by linear_combination hy1 - hx1
      have e2 : s * u.2 + (2 - 2 * t) * o.2 = 0 := by linear_combination hy2 - hx2
      obtain ⟨hα, hβ⟩ := det2_indep h e1 e2
      have ht : t = 1 := by linarith
      have hs : s = 0 := by linarith
      subst ht; subst hs
      refine Prod.ext_iff.mpr ⟨?_, ?_⟩ <;> dsimp only <;> linarith
    · rintro rfl
      refine ⟨⟨1, by norm_num, le_refl 1, by dsimp only; ring, by dsimp only; ring⟩,
        ⟨0, le_refl 0, by norm_num, by dsimp only; ring, by dsimp only; ring⟩⟩
  · ext x
    simp only [Set.mem_inter_iff, seg, Set.mem_setOf_eq, Set.mem_singleton_iff]
    constructor
    · rintro ⟨⟨t, ht0, ht1, hx1, hx2⟩, ⟨s, hs0, hs1, hy1, hy2⟩⟩
      have e1 : (1 - t) * u.1 + (-2 * s) * o.1 = 0 := by linear_combination hy1 - hx1
      have e2 : (1 - t) * u.2 + (-2 * s) * o.2 = 0 := by linear_combination hy2 - hx2
      obtain ⟨hα, hβ⟩ := det2_indep h e1 e2
      have ht : t = 1 := by linarith
      have hs : s = 0 := by linarith
      subst ht; subst hs
      refine Prod.ext_iff.mpr ⟨?_, ?_⟩ <;> dsimp only <;> linarith
    · rintro rfl
      refine ⟨⟨1, by norm_num, le_refl 1, by dsimp only; ring, by dsimp only; ring⟩,
        ⟨0, le_refl 0, by norm_num, by dsimp only; ring, by dsimp only; ring⟩⟩
  · ext x
    simp only [Set.mem_inter_iff, seg, Set.mem_setOf_eq, Set.mem_singleton_iff]
    constructor
    · rintro ⟨⟨t, ht0, ht1, hx1, hx2⟩, ⟨s, hs0, hs1, hy1, hy2⟩⟩
      have e1 : (-s) * u.1 + (2 * t - 2) * o.1 = 0 := by linear_combination hy1 - hx1
      have e2 : (-s) * u.2 + (2 * t - 2) * o.2 = 0 := by linear_combination hy2 - hx2
      obtain ⟨hα, hβ⟩ := det2_indep h e1 e2
      have ht : t = 1 := by linarith
      have hs : s = 0 := by linarith
      subst ht; subst hs
      refine Prod.ext_iff.mpr ⟨?_, ?_⟩ <;> dsimp only <;> linarith
    · rintro rfl
      refine ⟨⟨1, by norm_num, le_refl 1, by dsimp only; ring, by dsimp only; ring⟩,
        ⟨0, le_refl 0, by norm_num, by dsimp only; ring, by dsimp only; ring⟩⟩

theorem jsMod_360_mem {a : ℝ} (h : 0 ≤ a) : 0 ≤ jsMod a 360 ∧ jsMod a 360 < 360 := by
  have hd : 0 ≤ a / 360 := by positivity
  have hfl : (⌊a / 360⌋ : ℝ) ≤ a / 360 := Int.floor_le _
  have hfu : a / 360 < ⌊a / 360⌋ + 1 := Int.lt_floor_add_one _
  unfold jsMod jsTrunc
  rw [if_pos hd]
  constructor <;> [linarith; linarith]

theorem azimuthDeg_mem {sun : SunPos} (h : -Real.pi ≤ sun.azimuth) :
    0 ≤ azimuthDeg sun ∧ azimuthDeg sun < 360 := by
  have hpi := Real.pi_pos
  have key : 0 ≤ sun.azimuth * 180 / Real.pi + 180 := by
    have h1 : -180 ≤ sun.azimuth * 180 / Real.pi := by
      rw [le_div_iff₀ hpi]
      nlinarith
    linarith
  exact jsMod_360_mem key

theorem bearingAngle_mem (p1 p2 : ℝ × ℝ) :
    0 ≤ bearingAngle p1 p2 ∧ bearingAngle p1 p2 < 360 := by
  have hpi := Real.pi_pos
  have h1 : -Real.pi < atan2 (p2.2 - p1.2) (p2.1 - p1.1) := Complex.neg_pi_lt_arg _
  have key : 0 ≤ atan2 (p2.2 - p1.2) (p2.1 - p1.1) * 180 / Real.pi + 360 := by
    have h2 : -180 ≤ atan2 (p2.2 - p1.2) (p2.1 - p1.1) * 180 / Real.pi := by
      rw [le_div_iff₀ hpi]
      nlinarith
    linarith
  exact jsMod_360_mem key

/-- C1: whenever the sun position has altitude at most 0, drawStreets emits
no lit quads and drawBuildings computes no shadow vectors, regardless of
the road and building inputs (script.js lines 38-39 and 92-93). -/
theorem sun_below_horizon_all_empty (sun : SunPos) (sd : List Way) (bd : List Building)
    (h : sun.altitude ≤ 0) :
    drawStreets sun sd = [] ∧ (drawBuildings sun bd).shadows = [] := by
  constructor
  · unfold drawStreets
    rw [if_pos]
    rw [div_nonpos_iff]
    right
    exact ⟨by linarith, Real.pi_pos.le⟩
  · unfold drawBuildings
    rw [if_pos h]

theorem sun_below_horizon_all_empty_witness :
    drawStreets ⟨1, 0⟩ [⟨some [(0, 0), (0, 1)], some "primary"⟩] = [] ∧
    (drawBuildings ⟨1, 0⟩ [⟨some [(0, 0), (0, 1), (1, 0)], none⟩]).shadows = [] :=
  sun_below_horizon_all_empty ⟨1, 0⟩ [⟨some [(0, 0), (0, 1)], some "primary"⟩]
    [⟨some [(0, 0), (0, 1), (1, 0)], none⟩] le_rfl

/-- C9: when the altitude is at most 0, drawBuildings returns before its
forEach loop (script.js line 93), so not even the sun-independent building
footprint outlines are drawn. -/
theorem sun_below_horizon_no_footprints (sun : SunPos) (bd : List Building)
    (h : sun.altitude ≤ 0) : (drawBuildings sun bd).footprints = [] := by
  unfold drawBuildings
  rw [if_pos h]

theorem sun_below_horizon_no_footprints_witness :
    (drawBuildings ⟨2, -1⟩ [⟨some [(0, 0), (0, 1), (1, 0)], none⟩]).footprints = [] :=
  sun_below_horizon_no_footprints ⟨2, -1⟩ [⟨some [(0, 0), (0, 1), (1, 0)], none⟩]
    (by norm_num)

/-- C8: a way whose highway value is outside the accepted set, or whose
point sequence has fewer than 2 points, contributes no quads
(script.js lines 46-49). -/
theorem rejected_way_no_quads (az : ℝ) (w : Way) :
    (acceptedRoad w.highway = false → wayQuads az w = []) ∧
    (∀ g, w.geometry = some g → g.length < 2 → wayQuads az w = []) := by
  refine ⟨fun h => ?_, fun g hg hlen => ?_⟩
  · cases hgeo : w.geometry with
    | none => simp [wayQuads, hgeo]
    | some geom => simp [wayQuads, hgeo, h]
  · rw [wayQuads, hg]
    split_ifs <;> simp_all

theorem rejected_way_no_quads_witness :
    wayQuads 0 ⟨some [(0, 0), (1, 1)], some "footway"⟩ = [] ∧
    wayQuads 0 ⟨some [(0, 0)], some "primary"⟩ = [] :=
  ⟨(rejected_way_no_quads 0 ⟨some [(0, 0), (1, 1)], some "footway"⟩).1 (by decide),
   (rejected_way_no_quads 0 ⟨some [(0, 0)], some "primary"⟩).2 [(0, 0)] rfl
     (by simp)⟩

theorem atan2_zero_one : atan2 0 1 = 0 := by
  unfold atan2
  have h : ({ re := (1 : ℝ), im := (0 : ℝ) } : ℂ) = 1 := by
    apply Complex.ext <;> simp
  rw [h, Complex.arg_one]

theorem atan2_zero_zero : atan2 0 0 = 0 := by
  unfold atan2
  have h : ({ re := (0 : ℝ), im := (0 : ℝ) } : ℂ) = 0 := by
    apply Complex.ext <;> simp
  rw [h, Complex.arg_zero]

theorem jsMod_360_360 : jsMod 360 360 = 0 := by
  unfold jsMod jsTrunc
  norm_num

theorem bearingAngle_north : bearingAngle (0, 0) (1, 0) = 0 := by
  unfold bearingAngle
  dsimp only
  rw [show ((0 : ℝ) - 0) = 0 by norm_num, show ((1 : ℝ) - 0) = 1 by norm_num,
    atan2_zero_one, show (0 : ℝ) * 180 / Real.pi + 360 = 360 by simp]
  exact jsMod_360_360

/-- C2: a consecutive point pair is classified lit — segQuad emits a quad —
exactly when the circular distance `min diff (360 - diff)`, with
`diff = |bearing - azimuthDeg|`, is strictly below 20 degrees
(script.js lines 56-60); in particular a pair whose bearing is exactly 20
degrees from the adjusted azimuth is unlit. -/
theorem lit_iff_circular_distance_lt_20 (az w : ℝ) (p1 p2 : ℝ × ℝ) :
    (segQuad az w p1 p2).isSome = true ↔
      min |bearingAngle p1 p2 - az| (360 - |bearingAngle p1 p2 - az|) < 20 := by
  simp only [segQuad]
  split_ifs with h <;> simp [h]

/-- C3 (code bug): the script does not skip zero-length sub-segments.  A
coincident pair bears `atan2(0,0) = 0`, so whenever the adjusted azimuth is
within 20 degrees of 0 the pair is classified lit and the offset
computation divides by the zero segment length (0/0, NaN in JavaScript,
which reaches the emitted polygon; under Lean's total division the offsets
become 0 and the emitted quad collapses to a point). -/
theorem segQuad_degenerate_emits :
    segQuad 0 roadWidth (48, 2) (48, 2) =
      some ⟨(48, 2), (48, 2), (48, 2), (48, 2)⟩ := by
  have hb : bearingAngle (48, 2) (48, 2) = 0 := by
    unfold bearingAngle
    dsimp only
    rw [show ((2 : ℝ) - 2) = 0 by norm_num, show ((48 : ℝ) - 48) = 0 by norm_num,
      atan2_zero_zero, show (0 : ℝ) * 180 / Real.pi + 360 = 360 by simp]
    exact jsMod_360_360
  simp only [segQuad, hb]
  rw [if_pos (by norm_num)]
  norm_num

theorem jsTrunc_neg_half : jsTrunc (-180 / 360) = 0 := by
  unfold jsTrunc
  rw [if_neg (by norm_num), show (-180 / 360 : ℝ) = -(1 / 2) by norm_num,
    Int.ceil_eq_zero_iff]
  constructor <;> norm_num

/-- C5 counterexample: the JS remainder keeps the sign of its dividend, so
the finite azimuth -2π yields the adjusted azimuth -180, outside [0, 360).
(SunCalc itself only produces azimuths in (-π, π], but the claim quantifies
over every finite azimuth.) -/
theorem azimuthDeg_out_of_range :
    azimuthDeg ⟨-(2 * Real.pi), 0⟩ = -180 ∧
    ¬ 0 ≤ azimuthDeg ⟨-(2 * Real.pi), 0⟩ := by
  have hpi := Real.pi_ne_zero
  have h1 : -(2 * Real.pi) * 180 / Real.pi + 180 = -180 := by
    field_simp
    ring
  have h2 : azimuthDeg ⟨-(2 * Real.pi), 0⟩ = -180 := by
    unfold azimuthDeg
    dsimp only
    rw [h1]
    unfold jsMod
    rw [jsTrunc_neg_half]
    norm_num
  exact ⟨h2, by rw [h2]; norm_num⟩

/-- C5 (amended): for every azimuth at least -π — which covers the
(-π, π] range that the atan2-based SunCalc produces — the adjusted azimuth
`(azimuth * 180/π + 180) % 360` lies in [0, 360); and for every point pair
with distinct coordinates the bearing `(atan2(Δlon, Δlat) * 180/π + 360) %
360` lies in [0, 360). -/
theorem azimuth_and_bearing_in_range :
    (∀ sun : SunPos, -Real.pi ≤ sun.azimuth →
      0 ≤ azimuthDeg sun ∧ azimuthDeg sun < 360) ∧
    (∀ p1 p2 : ℝ × ℝ, p1 ≠ p2 →
      0 ≤ bearingAngle p1 p2 ∧ bearingAngle p1 p2 < 360) :=
  ⟨fun _ h => azimuthDeg_mem h, fun p1 p2 _ => bearingAngle_mem p1 p2⟩

theorem azimuth_and_bearing_in_range_witness :
    (0 ≤ azimuthDeg ⟨0, 0⟩ ∧ azimuthDeg ⟨0, 0⟩ < 360) ∧
    (0 ≤ bearingAngle (0, 0) (1, 0) ∧ bearingAngle (0, 0) (1, 0) < 360) :=
  ⟨azimuth_and_bearing_in_range.1 ⟨0, 0⟩ (by simp [Real.pi_pos.le]),
   azimuth_and_bearing_in_range.2 (0, 0) (1, 0) (by simp [Prod.ext_iff])⟩

/-- C6 counterexample: a present building:height tag with an empty value is
falsy in JavaScript, so its parsed float (NaN) is not used; the levels
fallback is consulted instead and gives 12. -/
theorem parseIntQ_four : parseIntQ "4" = some 4 := by decide

theorem empty_height_tag_not_used :
    estimateHeight (some ⟨some "", some "4"⟩) = some 12 ∧ parseFloatQ "" = none := by
  constructor
  · have h : estimateHeight (some ⟨some "", some "4"⟩) =
        (parseIntQ "4").map (fun n => (n : ℚ) * 3) := by
      simp [estimateHeight, truthyStr]
    rw [h, parseIntQ_four]
    norm_num
  · decide

/-- C6 (amended): height priority with JS-truthy (present and nonempty) tag
values: a nonempty building:height value is parsed as a float and used; a
present-but-empty or absent height tag falls through to a nonempty
building:levels value, parsed as an int and tripled; otherwise the height
is the default 10.  In particular levels "4" alone gives 12 and no tags
give 10 (script.js lines 108-110). -/
theorem estimateHeight_priority (t : Tags) :
    (∀ s, t.height = some s → s ≠ "" → estimateHeight (some t) = parseFloatQ s) ∧
    ((t.height = none ∨ t.height = some "") →
      ∀ s, t.levels = some s → s ≠ "" →
        estimateHeight (some t) = (parseIntQ s).map (fun n => (n : ℚ) * 3)) ∧
    ((t.height = none ∨ t.height = some "") →
      (t.levels = none ∨ t.levels = some "") → estimateHeight (some t) = some 10) ∧
    estimateHeight (some ⟨none, some "4"⟩) = some 12 ∧
    estimateHeight none = some 10 := by
  have h4 : estimateHeight (some ⟨none, some "4"⟩) = some 12 := by
    have h : estimateHeight (some ⟨none, some "4"⟩) =
        (parseIntQ "4").map (fun n => (n : ℚ) * 3) := by
      simp [estimateHeight, truthyStr]
    rw [h, parseIntQ_four]
    norm_num
  obtain ⟨oh, ol⟩ := t
  refine ⟨?_, ?_, ?_, h4, by decide⟩
  · rintro s rfl hne
    simp [estimateHeight, truthyStr, hne]
  · rintro (rfl | rfl) s rfl hne <;>
      simp [estimateHeight, truthyStr, hne]
  · rintro (rfl | rfl) (rfl | rfl) <;> decide

theorem estimateHeight_priority_witness :
    estimateHeight (some ⟨some "7.5", some "4"⟩) = parseFloatQ "7.5" ∧
    estimateHeight (some ⟨none, some "4"⟩) =
      (parseIntQ "4").map (fun n => (n : ℚ) * 3) ∧
    estimateHeight (some ⟨some "", none⟩) = some 10 :=
  ⟨(estimateHeight_priority ⟨some "7.5", some "4"⟩).1 "7.5" rfl (by decide),
   (estimateHeight_priority ⟨none, some "4"⟩).2.1 (Or.inl rfl) "4" rfl (by decide),
   (estimateHeight_priority ⟨some "", none⟩).2.2.1 (Or.inr rfl) (Or.inl rfl)⟩

/-- C10 counterexample: a present building:height tag whose value is the
empty string is falsy, so — contrary to the claim — the fallback chain IS
consulted: here the default fires and the height is 10, not NaN. -/
theorem empty_height_tag_uses_default :
    estimateHeight (some ⟨some "", none⟩) = some 10 ∧ parseFloatQ "" = none := by
  constructor <;> decide

/-- C10 (amended): when building:height is present with a nonempty value
its parsed float is used whatever the levels tag holds — the fallbacks are
never consulted — and when that value does not parse as a number the
estimated height and the derived shadow length are NaN (none), never a
fallback value. -/
theorem height_tag_wins (s : String) (hs : s ≠ "") (l1 l2 : Option String) :
    estimateHeight (some ⟨some s, l1⟩) = parseFloatQ s ∧
    estimateHeight (some ⟨some s, l1⟩) = estimateHeight (some ⟨some s, l2⟩) ∧
    (parseFloatQ s = none → ∀ sun : SunPos, ∀ g : Option (List (ℝ × ℝ)),
      (shadowVecOf sun ⟨g, some ⟨some s, l1⟩⟩).len = none) := by
  have h1 : estimateHeight (some ⟨some s, l1⟩) = parseFloatQ s := by
    simp [estimateHeight, truthyStr, hs]
  have h2 : estimateHeight (some ⟨some s, l2⟩) = parseFloatQ s := by
    simp [estimateHeight, truthyStr, hs]
  refine ⟨h1, h1.trans h2.symm, fun hp sun g => ?_⟩
  simp [shadowVecOf, h1, hp]

theorem height_tag_wins_witness :
    estimateHeight (some ⟨some "abc", some "4"⟩) = parseFloatQ "abc" ∧
    estimateHeight (some ⟨some "abc", some "4"⟩) =
      estimateHeight (some ⟨some "abc", none⟩) ∧
    (shadowVecOf ⟨0, 1⟩ ⟨none, some ⟨some "abc", some "4"⟩⟩).len = none :=
  ⟨(height_tag_wins "abc" (by decide) (some "4") none).1,
   (height_tag_wins "abc" (by decide) (some "4") none).2.1,
   (height_tag_wins "abc" (by decide) (some "4") none).2.2 (by decide) ⟨0, 1⟩ none⟩

/-- C7: the shadow length is height / tan(altitude): strictly decreasing in
altitude on (0, π/2) for a fixed positive height, strictly increasing in
height for a fixed altitude in (0, π/2), and height 9 at altitude π/4 (45
degrees, tan = 1) gives length 9 (script.js line 112). -/
theorem shadowLength_monotone :
    (∀ h a1 a2 : ℝ, 0 < h → 0 < a1 → a1 < a2 → a2 < Real.pi / 2 →
      shadowLength h a2 < shadowLength h a1) ∧
    (∀ h1 h2 a : ℝ, 0 < a → a < Real.pi / 2 → h1 < h2 →
      shadowLength h1 a < shadowLength h2 a) ∧
    shadowLength 9 (Real.pi / 4) = 9 := by
  refine ⟨?_, ?_, ?_⟩
  · intro h a1 a2 hh ha1 ha12 ha2
    unfold shadowLength
    have ht1 : 0 < Real.tan a1 :=
      Real.tan_pos_of_pos_of_lt_pi_div_two ha1 (by linarith)
    have ht12 : Real.tan a1 < Real.tan a2 :=
      Real.tan_lt_tan_of_nonneg_of_lt_pi_div_two ha1.le ha2 ha12
    exact div_lt_div_of_pos_left hh ht1 ht12
  · intro h1 h2 a ha1 ha2 hh
    unfold shadowLength
    have ht : 0 < Real.tan a := Real.tan_pos_of_pos_of_lt_pi_div_two ha1 ha2
    gcongr
  · unfold shadowLength
    rw [Real.tan_pi_div_four]
    norm_num

theorem shadowLength_monotone_witness :
    shadowLength 9 (Real.pi / 3) < shadowLength 9 (Real.pi / 6) ∧
    shadowLength 1 (Real.pi / 4) < shadowLength 2 (Real.pi / 4) :=
  ⟨shadowLength_monotone.1 9 (Real.pi / 6) (Real.pi / 3) (by norm_num)
      (by positivity) (by linarith [Real.pi_pos]) (by linarith [Real.pi_pos]),
   shadowLength_monotone.2.1 1 2 (Real.pi / 4) (by positivity)
      (by linarith [Real.pi_pos]) (by norm_num)⟩

theorem offset_quad_simple (p1 p2 : ℝ × ℝ) (oLat oLon : ℝ)
    (h : det2 (p2.1 - p1.1, p2.2 - p1.2) (oLat, oLon) ≠ 0) :
    IsSimpleQuad (p1.1 + oLat, p1.2 + oLon) (p2.1 + oLat, p2.2 + oLon)
      (p2.1 - oLat, p2.2 - oLon) (p1.1 - oLat, p1.2 - oLon) := by
  have hpar := parallelogram_simple p1 (p2.1 - p1.1, p2.2 - p1.2) (oLat, oLon) h
  dsimp only at hpar
  have e1 : p1.1 + (p2.1 - p1.1) + oLat = p2.1 + oLat := by ring
  have e2 : p1.2 + (p2.2 - p1.2) + oLon = p2.2 + oLon := by ring
  have e3 : p1.1 + (p2.1 - p1.1) - oLat = p2.1 - oLat := by ring
  have e4 : p1.2 + (p2.2 - p1.2) - oLon = p2.2 - oLon := by ring
  rw [e1, e2, e3, e4] at hpar
  exact hpar

/-- C4: a quad emitted for a lit sub-segment with distinct endpoints and a
positive road width — the corners (p1+offset, p2+offset, p2-offset,
p1-offset) of script.js lines 61-69 — is a simple (non-self-intersecting)
quadrilateral. -/
theorem litQuad_simple (az w : ℝ) (p1 p2 : ℝ × ℝ) (q : Quad)
    (hp : p1 ≠ p2) (hw : 0 < w) (hq : segQuad az w p1 p2 = some q) :
    IsSimpleQuad q.a q.b q.c q.d := by
  simp only [segQuad] at hq
  split at hq
  · rw [Option.some.injEq] at hq
    subst hq
    dsimp only
    set dx := p2.2 - p1.2 with hdx
    set dy := p2.1 - p1.1 with hdy
    set L := Real.sqrt (dx * dx + dy * dy) with hL
    have hpp : dx ≠ 0 ∨ dy ≠ 0 := by
      by_contra hc
      push_neg at hc
      exact hp (Prod.ext_iff.mpr ⟨by linarith [hc.2], by linarith [hc.1]⟩)
    have hsum : 0 < dx * dx + dy * dy := by
      rcases hpp with h | h
      · nlinarith [mul_self_pos.mpr h, mul_self_nonneg dy]
      · nlinarith [mul_self_pos.mpr h, mul_self_nonneg dx]
    have hLpos : 0 < L := Real.sqrt_pos.mpr hsum
    have hdet : det2 (dy, dx) ((w / 110540) * (dx / L), (w / 111320) * (-dy / L)) ≠ 0 := by
      have e : det2 (dy, dx) ((w / 110540) * (dx / L), (w / 111320) * (-dy / L)) =
          -(w * (dy * dy) / (111320 * L)) - w * (dx * dx) / (110540 * L) := by
        unfold det2
        dsimp only
        ring
      have t1 : 0 ≤ w * (dy * dy) / (111320 * L) :=
        div_nonneg (mul_nonneg hw.le (mul_self_nonneg dy)) (by positivity)
      have t2 : 0 ≤ w * (dx * dx) / (110540 * L) :=
        div_nonneg (mul_nonneg hw.le (mul_self_nonneg dx)) (by positivity)
      have hneg : -(w * (dy * dy) / (111320 * L)) - w * (dx * dx) / (110540 * L) < 0 := by
        rcases hpp with h | h
        · have : 0 < w * (dx * dx) / (110540 * L) :=
            div_pos (mul_pos hw (mul_self_pos.mpr h)) (by positivity)
          linarith
        · have : 0 < w * (dy * dy) / (111320 * L) :=
            div_pos (mul_pos hw (mul_self_pos.mpr h)) (by positivity)
          linarith
      rw [e]
      exact ne_of_lt hneg
    exact offset_quad_simple p1 p2 ((w / 110540) * (dx / L)) ((w / 111320) * (-dy / L)) hdet
  · exact absurd hq (by simp)

theorem segQuad_north_eval :
    segQuad 0 6 (0, 0) (1, 0) =
      some ⟨(0, -(6 / 111320)), (1, -(6 / 111320)), (1, 6 / 111320), (0, 6 / 111320)⟩ := by
  simp only [segQuad, bearingAngle_north]
  rw [if_pos (by norm_num)]
  norm_num [Real.sqrt_one]

theorem litQuad_simple_witness :
    IsSimpleQuad ((0 : ℝ), -(6 / 111320)) (1, -(6 / 111320))
      (1, 6 / 111320) (0, 6 / 111320) :=
  litQuad_simple 0 6 (0, 0) (1, 0)
    ⟨(0, -(6 / 111320)), (1, -(6 / 111320)), (1, 6 / 111320), (0, 6 / 111320)⟩
    (by simp [Prod.ext_iff]) (by norm_num) segQuad_north_eval

end Sunmap
